import Mathlib

/-!
# AirCom Mesh Communication & Resilience Core — verification development

Shallow embedding of the AirCom firmware core (HaLow mesh manager with its
offline-delivery cache, the error/retry framework, the security gateway, the
inter-task queue helpers, the router/UI summary exchange, and the wire packet
codec), together with theorems settling the specification claims.

Conventions:
* C byte buffers are `List Nat` with each element intended below 256.
* C strings (`std::string`, `char*`) are `List Nat` of their bytes.
* Machine integers are `Nat`/`Int`; wraparound is written with explicit `%`.
* Stateful C++ objects become explicit state records; member functions become
  functions from the state (plus arguments) to the result and the new state.
* Calls into the external MM-IoT-SDK transport are recorded in an explicit
  trace (`List TransportCall`); the SDK's success/failure answer is an oracle
  function passed in as a parameter.
-/

/-! ## HaLowMeshManager (src/components/HaLowManager/HaLowMeshManager.cpp) -/

/-- One send call handed to the MM-IoT-SDK transport wrapper.
`sendData` is the unicast call (peer address, payload bytes) and
`broadcastData` the multicast/broadcast call (payload bytes); neither SDK
call takes a port argument. -/
inductive TransportCall where
  | sendData (destIp : List Nat) (data : List Nat)
  | broadcastData (data : List Nat)
deriving DecidableEq, Repr

/-- The CachedMessage struct: payload bytes, destination port, destination IP
(empty/default for multicast) and the multicast flag. -/
structure CachedMessage where
  data : List Nat
  port : Nat
  destIp : List Nat
  isMulticast : Bool
deriving DecidableEq, Repr

/-- State of the HaLowMeshManager object: the fields set by the constructor
and begin().  hasSDK models m_mmSDK being non-null. -/
structure HaLowState where
  isInitialized : Bool
  isConnected : Bool
  hasSDK : Bool
  messageCache : List CachedMessage
deriving DecidableEq, Repr

/-- Oracle giving the boolean result the MM-IoT-SDK returns for each transport
send call. -/
def SdkOracle := TransportCall → Bool

/-- HaLowMeshManager::sendUdpMulticast.  Returns the boolean result, the new
manager state, and the list of transport send calls made. -/
def sendUdpMulticast (sdk : SdkOracle) (s : HaLowState)
    (data : List Nat) (port : Nat) : Bool × HaLowState × List TransportCall :=
  if !s.isInitialized || !s.hasSDK then
    (false, s, [])
  else if !s.isConnected then
    (true,
     { s with messageCache :=
         s.messageCache ++ [{ data := data, port := port, destIp := [], isMulticast := true }] },
     [])
  else
    let call := TransportCall.broadcastData data
    (sdk call, s, [call])

/-- HaLowMeshManager::sendUdpUnicast. -/
def sendUdpUnicast (sdk : SdkOracle) (s : HaLowState)
    (destIp : List Nat) (data : List Nat) (port : Nat) :
    Bool × HaLowState × List TransportCall :=
  if !s.isInitialized || !s.hasSDK then
    (false, s, [])
  else if !s.isConnected then
    (true,
     { s with messageCache :=
         s.messageCache ++ [{ data := data, port := port, destIp := destIp, isMulticast := false }] },
     [])
  else
    let call := TransportCall.sendData destIp data
    (sdk call, s, [call])

/-- HaLowMeshManager::setConnectionStatus: records the new status (and logs on
a change); it makes no transport call and does not touch the message cache. -/
def setConnectionStatus (s : HaLowState) (status : Bool) : HaLowState :=
  if s.isConnected != status then { s with isConnected := status } else s

/-- Body of the range-for loop in sendCachedMessages: replay each snapshot
entry through sendUdpMulticast / sendUdpUnicast (the boolean result of each
replayed send is discarded by the source), threading the state and
concatenating the transport traces. -/
def flushLoop (sdk : SdkOracle) (s : HaLowState) :
    List CachedMessage → HaLowState × List TransportCall
  | [] => (s, [])
  | m :: rest =>
    let step :=
      if m.isMulticast then sendUdpMulticast sdk s m.data m.port
      else sendUdpUnicast sdk s m.destIp m.data m.port
    let next := flushLoop sdk step.2.1 rest
    (next.1, step.2.2 ++ next.2)

/-- HaLowMeshManager::sendCachedMessages: if the cache is empty do nothing;
otherwise replay every cached entry in order and then clear the cache. -/
def sendCachedMessages (sdk : SdkOracle) (s : HaLowState) :
    HaLowState × List TransportCall :=
  if s.messageCache = [] then (s, [])
  else
    let flushed := flushLoop sdk s s.messageCache
    ({ flushed.1 with messageCache := [] }, flushed.2)

/-- HaLowMeshManager::handleConnectionEvent: the MM-IoT-SDK connection
callback.  It forwards the status to setConnectionStatus and, when the event
reports connected, replays the cache via sendCachedMessages.  (The source may
additionally call m_mmSDK->startDiscovery(), which is not a send call and is
not part of the transport send trace.) -/
def handleConnectionEvent (sdk : SdkOracle) (s : HaLowState)
    (connected : Bool) : HaLowState × List TransportCall :=
  let s1 := setConnectionStatus s connected
  if connected then sendCachedMessages sdk s1 else (s1, [])

/-- The transport call a cached message turns into when replayed while
connected. -/
def callOfCached (m : CachedMessage) : TransportCall :=
  if m.isMulticast then TransportCall.broadcastData m.data
  else TransportCall.sendData m.destIp m.data

/-! ## Error handling framework (src/main/error_handling.c) -/

/-- Error categories from error_handling.h (the ones the retry path uses). -/
inductive ErrorCategory where
  | network | audio | system | storage | hardware | crypto | ui | sensor | config
deriving DecidableEq, Repr

/-- Error codes relevant to the retry path. -/
inductive ErrorCode where
  | timeout | memoryAllocation | other (n : Nat)
deriving DecidableEq, Repr

/-- The retry_config_t struct.  backoff_multiplier is a C float; it is
modelled as a rational, exact for the multipliers used by the presets
(2.0, 1.5) and the claims. -/
structure RetryConfig where
  max_attempts : Nat
  base_delay_ms : Nat
  max_delay_ms : Nat
  backoff_multiplier : ℚ
  jitter_enabled : Bool
deriving DecidableEq, Repr

/-- RETRY_CONFIG_DEFAULT preset. -/
def RETRY_CONFIG_DEFAULT : RetryConfig :=
  { max_attempts := 3, base_delay_ms := 100, max_delay_ms := 5000
    backoff_multiplier := 2, jitter_enabled := true }

/-- add_jitter: returns delay_ms unchanged when max_jitter_ms is 0, otherwise
adds rand() % max_jitter_ms.  The C rand() value is the parameter r. -/
def add_jitter (delay_ms max_jitter_ms r : Nat) : Nat :=
  if max_jitter_ms = 0 then delay_ms else delay_ms + r % max_jitter_ms

/-- The exponential-backoff loop inside calculate_backoff_delay: run attempt
iterations; each multiplies the delay by the multiplier (the C cast
(uint32_t)(delay * multiplier) truncates, i.e. floors, the nonnegative
product) and, if the result exceeds max_delay, clamps to max_delay and
breaks out of the loop. -/
def backoffLoop (delay maxDelay : Nat) (mult : ℚ) : Nat → Nat
  | 0 => delay
  | n + 1 =>
    let d : Nat := (Int.floor ((delay : ℚ) * mult)).toNat
    if d > maxDelay then maxDelay else backoffLoop d maxDelay mult n

/-- calculate_backoff_delay(attempt, base_delay, max_delay, multiplier,
jitter_enabled), with the rand() draw passed in as r: exponential backoff
clamped at max_delay, then up to 25% jitter (jitter_max = delay / 4) added
only when jitter is enabled and the delay is still below max_delay. -/
def calculate_backoff_delay (attempt base_delay max_delay : Nat)
    (multiplier : ℚ) (jitter_enabled : Bool) (r : Nat) : Nat :=
  let delay := backoffLoop base_delay max_delay multiplier attempt
  if jitter_enabled = true ∧ delay < max_delay then
    add_jitter delay (delay / 4) r
  else delay

/-- The while loop of retry_with_backoff: invoke the operation while
attempt < max_attempts and no success; func i is the result of the i-th
invocation of the operation.  Returns (success, number of invocations).
The inter-attempt vTaskDelay only spends time and does not affect results,
so it is not represented.  The second argument is the remaining attempts
(max_attempts - attempt). -/
def retryLoop (func : Nat → Bool) (attempt : Nat) : Nat → Bool × Nat
  | 0 => (false, attempt)
  | fuel + 1 =>
    if func attempt then (true, attempt + 1)
    else retryLoop func (attempt + 1) fuel

/-- retry_with_backoff(func, context, config, error_context).  A null func or
config returns false immediately.  errorCtxProvided models the error_context
out-pointer being non-null; the third result component is the error report
written on the all-attempts-failed path (error_report is called with category
SYSTEM and code TIMEOUT only when error_context is non-null). -/
def retry_with_backoff (func : Option (Nat → Bool))
    (config : Option RetryConfig) (errorCtxProvided : Bool) :
    Bool × Nat × Option (ErrorCategory × ErrorCode) :=
  match func, config with
  | some f, some cfg =>
    let run := retryLoop f 0 cfg.max_attempts
    (run.1, run.2,
     if run.1 = false ∧ errorCtxProvided = true then
       some (ErrorCategory.system, ErrorCode.timeout)
     else none)
  | _, _ => (false, 0, none)

/-! ## SecurityManager (src/main/SecurityManager.cpp) -/

/-- State of the SecurityManager: the initialization flag and the stored
group key bytes. -/
structure SecurityState where
  isInitialized : Bool
  groupKey : List Nat
deriving DecidableEq, Repr

/-- SecurityManager::setGroupKey: reject (returning with no state change) any
key whose size is not exactly 32 bytes, otherwise store the key. -/
def setGroupKey (s : SecurityState) (new_key : List Nat) : SecurityState :=
  if new_key.length ≠ 32 then s else { s with groupKey := new_key }

/-- SecurityManager::decrypt(encrypted_packet, plaintext).  The source body
returns false only when the manager is uninitialized; otherwise it logs that
decryption is a placeholder and returns true without performing any
authentication and without writing the plaintext out-parameter (the
assignment is commented out).  Result: (returned bool, plaintext buffer after
the call). -/
def securityDecrypt (s : SecurityState) (encrypted_packet : List Nat)
    (plaintext : List Nat) : Bool × List Nat :=
  if !s.isInitialized then (false, plaintext)
  else (true, plaintext)

/-! ## Queue send helpers (src/main/shared_data.cpp) -/

/-- QUEUE_SEND_TIMEOUT, in milliseconds (pdMS_TO_TICKS(200)). -/
def QUEUE_SEND_TIMEOUT : Nat := 200

/-- QUEUE_SEND_TIMEOUT_CRITICAL, in milliseconds (pdMS_TO_TICKS(10)). -/
def QUEUE_SEND_TIMEOUT_CRITICAL : Nat := 10

/-- MUTEX_TIMEOUT_SHORT, in milliseconds (pdMS_TO_TICKS(100)). -/
def MUTEX_TIMEOUT_SHORT : Nat := 100

/-- Model of xQueueSend(queue, item, timeout) against a queue that either has
space (the call succeeds immediately) or remains full for the whole call (the
call blocks for the full timeout and returns errQUEUE_FULL).  Result:
(pdPASS as a Bool, milliseconds the caller was blocked). -/
def xQueueSendModel (fullThroughout : Bool) (timeout_ms : Nat) : Bool × Nat :=
  if fullThroughout then (false, timeout_ms) else (true, 0)

/-- send_ui_update: one xQueueSend with QUEUE_SEND_TIMEOUT; on failure the
update is dropped (a warning is logged).  queueCreated models the
ui_update_queue handle being non-null. -/
def send_ui_update (queueCreated fullThroughout : Bool) : Bool × Nat :=
  if !queueCreated then (false, 0)
  else xQueueSendModel fullThroughout QUEUE_SEND_TIMEOUT

/-- send_audio_command: one xQueueSend with QUEUE_SEND_TIMEOUT_CRITICAL, and
on failure one retry with MUTEX_TIMEOUT_SHORT before dropping.  The second
result component is the total blocked time in milliseconds. -/
def send_audio_command (queueCreated fullThroughout : Bool) : Bool × Nat :=
  if !queueCreated then (false, 0)
  else
    let first := xQueueSendModel fullThroughout QUEUE_SEND_TIMEOUT_CRITICAL
    if first.1 then first
    else
      let second := xQueueSendModel fullThroughout MUTEX_TIMEOUT_SHORT
      (second.1, first.2 + second.2)

/-! ## Router summary / UI task sentinel (src/main/network_task.cpp,
src/main/ui_task.cpp, ui_update_t in src/main/include/shared_data.h) -/

/-- The C++ conversion of an integer to bool: nonzero becomes true. -/
def cxxBoolOfInt (n : Nat) : Bool := n != 0

/-- The ui_update_t struct: has_gps_lock is declared bool, contact_count is a
uint8_t. -/
structure UiUpdate where
  has_gps_lock : Bool
  contact_count : Nat
deriving DecidableEq, Repr

/-- The UI-task state touched by the ui-update processing: the displayed
contact count, the GPS lock flag, and the redraw request. -/
structure UiState where
  team_contact_count : Nat
  gps_lock_status : Bool
  force_redraw : Bool
deriving DecidableEq, Repr

/-- The summary the network task publishes on the ui-update channel
(network_task.cpp line 174): has_gps_lock = (bool)0xFF (the intended
"unchanged" sentinel, truncated by the bool cast) and contact_count =
(uint8_t)nodes.size(). -/
def networkSummaryUpdate (nodeCount : Nat) : UiUpdate :=
  { has_gps_lock := cxxBoolOfInt 0xFF, contact_count := nodeCount % 256 }

/-- The UI task's handling of one received ui_update_t (ui_task.cpp lines
216-223): a contact_count different from 0xFF is applied; a has_gps_lock
different from 0xFF is applied (the bool field is promoted to 0 or 1 for the
comparison); each applied field forces a redraw. -/
def uiApplyUpdate (st : UiState) (u : UiUpdate) : UiState :=
  let st1 :=
    if u.contact_count ≠ 0xFF then
      { st with team_contact_count := u.contact_count, force_redraw := true }
    else st
  if u.has_gps_lock.toNat ≠ 0xFF then
    { st1 with gps_lock_status := u.has_gps_lock, force_redraw := true }
  else st1

/-! ## Wire packet codec (src/components/aircom_proto/AirCom.pb-c.h) -/

/-- The NodeInfo message struct. -/
structure NodeInfo where
  callsign : List Nat
  node_id : List Nat
deriving DecidableEq, Repr

/-- The TextMessage message struct. -/
structure TextMessage where
  text : List Nat
deriving DecidableEq, Repr

/-- The NetworkHealth message struct (rssi is a C int, 32 bits). -/
structure NetworkHealth where
  rssi : Int
deriving DecidableEq, Repr

/-- The AirComPacket struct: the variant tag plus one pointer per variant
(None models a null pointer) and the from_node string. -/
structure AirComPacket where
  payload_variant_case : Nat
  node_info : Option NodeInfo
  text_message : Option TextMessage
  network_health : Option NetworkHealth
  from_node : List Nat
  cot_message : Option (List Nat)
deriving DecidableEq, Repr

/-- A wire-encodable short string: its length fits the one-byte length prefix
and every element is a byte. -/
def validStr (s : List Nat) : Bool :=
  decide (s.length < 256) && s.all (fun b => b < 256)

/-- A value representable as a 32-bit signed int. -/
def int32InRange (i : Int) : Bool :=
  decide (-(2 ^ 31) ≤ i ∧ i < 2 ^ 31)

/-- A valid AirComPacket: the variant tag names one of the four payload
variants, exactly the matching pointer is non-null, and every string is a
wire-encodable short string (§3 invariant: exactly one variant populated). -/
def validPacket (p : AirComPacket) : Bool :=
  match p.payload_variant_case, p.node_info, p.text_message,
        p.network_health, p.cot_message with
  | 1, some n, none, none, none =>
    validStr p.from_node && validStr n.callsign && validStr n.node_id
  | 2, none, some t, none, none => validStr p.from_node && validStr t.text
  | 3, none, none, some h, none => validStr p.from_node && int32InRange h.rssi
  | 4, none, none, none, some c => validStr p.from_node && validStr c
  | _, _, _, _, _ => false

/-- Modelled from the spec: the wire string encoding used by the
length-prefixed serialization (§6): one length byte followed by the string
bytes ("from_node/to_node as short strings"). -/
def encodeString (s : List Nat) : List Nat := s.length :: s

/-- Modelled from the spec: a 32-bit integer field on the wire, little-endian
two's-complement (the value is reduced mod 2^32 and split into four
bytes). -/
def encodeInt32 (i : Int) : List Nat :=
  let n : Nat := (i.emod (2 ^ 32)).toNat
  [n % 256, n / 256 % 256, n / 65536 % 256, n / 16777216 % 256]

/-- Modelled from the spec: air_com_packet__pack.  The protobuf-c
implementation is not part of this repository (AirCom.pb-c.h declares dummy
prototypes only), so the wire format follows §6: a tag-dispatched,
length-prefixed serialization carrying the variant tag, the from_node string
and the fields of the active variant. -/
def air_com_packet__pack (p : AirComPacket) : List Nat :=
  p.payload_variant_case ::
  encodeString p.from_node ++
  (match p.payload_variant_case, p.node_info, p.text_message,
         p.network_health, p.cot_message with
   | 1, some n, _, _, _ => encodeString n.callsign ++ encodeString n.node_id
   | 2, _, some t, _, _ => encodeString t.text
   | 3, _, _, some h, _ => encodeInt32 h.rssi
   | 4, _, _, _, some c => encodeString c
   | _, _, _, _, _ => [])

/-- Modelled from the spec: air_com_packet__get_packed_size, the number of
bytes air_com_packet__pack writes. -/
def air_com_packet__get_packed_size (p : AirComPacket) : Nat :=
  (air_com_packet__pack p).length

/-- Modelled from the spec: read one length-prefixed string, returning it and
the remaining bytes; fails on truncation. -/
def decodeString : List Nat → Option (List Nat × List Nat)
  | [] => none
  | l :: rest =>
    if l ≤ rest.length then some (rest.take l, rest.drop l) else none

/-- Modelled from the spec: read a little-endian 32-bit signed integer,
returning it and the remaining bytes; fails on truncation. -/
def decodeInt32 : List Nat → Option (Int × List Nat)
  | b0 :: b1 :: b2 :: b3 :: rest =>
    let n : Nat := b0 + 256 * b1 + 65536 * b2 + 16777216 * b3
    some (if n < 2 ^ 31 then (n : Int) else (n : Int) - 2 ^ 32, rest)
  | _ => none

/-- Modelled from the spec: air_com_packet__unpack over a buffer of exactly
the packed size: dispatch on the variant tag, read from_node and the variant
fields, and fail (returning None, as the C function returns NULL) on a
truncated buffer, an unknown tag, or trailing bytes. -/
def air_com_packet__unpack (buf : List Nat) : Option AirComPacket :=
  match buf with
  | [] => none
  | tag :: rest =>
    match decodeString rest with
    | none => none
    | some (fn, r1) =>
      match tag with
      | 1 =>
        match decodeString r1 with
        | none => none
        | some (cs, r2) =>
          match decodeString r2 with
          | none => none
          | some (nid, r3) =>
            if r3 = [] then
              some ⟨1, some ⟨cs, nid⟩, none, none, fn, none⟩
            else none
      | 2 =>
        match decodeString r1 with
        | none => none
        | some (txt, r2) =>
          if r2 = [] then some ⟨2, none, some ⟨txt⟩, none, fn, none⟩ else none
      | 3 =>
        match decodeInt32 r1 with
        | none => none
        | some (rssi, r2) =>
          if r2 = [] then some ⟨3, none, none, some ⟨rssi⟩, fn, none⟩ else none
      | 4 =>
        match decodeString r1 with
        | none => none
        | some (c, r2) =>
          if r2 = [] then some ⟨4, none, none, none, fn, some c⟩ else none
      | _ => none

/-! ## Theorems -/

/-- While connected (and initialized), a single send leaves the manager state
unchanged and emits exactly the corresponding transport call. -/
lemma flushLoop_connected (sdk : SdkOracle) (s : HaLowState)
    (h1 : s.isInitialized = true) (h2 : s.hasSDK = true)
    (h3 : s.isConnected = true) :
    ∀ msgs : List CachedMessage,
      flushLoop sdk s msgs = (s, msgs.map callOfCached) := by
  intro msgs
  induction msgs with
  | nil => simp [flushLoop]
  | cons m rest ih =>
    by_cases hm : m.isMulticast = true
    · simp [flushLoop, sendUdpMulticast, callOfCached, h1, h2, h3, hm, ih]
    · simp [flushLoop, sendUdpUnicast, callOfCached, h1, h2, h3, hm, ih]

/-- C1: while the manager is initialized (with a live SDK handle) and its
connection status is Disconnected, sendUdpUnicast and sendUdpMulticast each
append exactly one CachedMessage holding the payload bytes, destination and
port to the message cache, make no transport send call, and return true. -/
theorem disconnected_send_caches (sdk : SdkOracle) (s : HaLowState)
    (destIp data : List Nat) (port : Nat)
    (h1 : s.isInitialized = true) (h2 : s.hasSDK = true)
    (h3 : s.isConnected = false) :
    sendUdpUnicast sdk s destIp data port =
      (true,
       { s with messageCache := s.messageCache ++
           [{ data := data, port := port, destIp := destIp, isMulticast := false }] },
       []) ∧
    sendUdpMulticast sdk s data port =
      (true,
       { s with messageCache := s.messageCache ++
           [{ data := data, port := port, destIp := [], isMulticast := true }] },
       []) := by
  constructor
  · simp [sendUdpUnicast, h1, h2, h3]
  · simp [sendUdpMulticast, h1, h2, h3]

/-- Witness for C1 at a concrete disconnected manager state. -/
theorem disconnected_send_caches_witness :
    sendUdpUnicast (fun _ => true) ⟨true, false, true, []⟩ [66] [1, 2, 3] 5000 =
      (true, ⟨true, false, true,
        [{ data := [1, 2, 3], port := 5000, destIp := [66], isMulticast := false }]⟩, []) ∧
    sendUdpMulticast (fun _ => true) ⟨true, false, true, []⟩ [1, 2, 3] 5000 =
      (true, ⟨true, false, true,
        [{ data := [1, 2, 3], port := 5000, destIp := [], isMulticast := true }]⟩, []) :=
  disconnected_send_caches (fun _ => true) ⟨true, false, true, []⟩ [66] [1, 2, 3] 5000
    rfl rfl rfl

/-- C2 counterexample: setConnectionStatus(true) on its own only records the
new status — it neither calls the transport (it returns no transport trace by
construction) nor drains the cache.  At a concrete disconnected state holding
one cached unicast message, the cache still holds that message after
setConnectionStatus(true), so the transition alone does not replay or empty
the cache as the claim states. -/
theorem setConnectionStatus_does_not_flush :
    setConnectionStatus
        ⟨true, false, true,
          [{ data := [1, 2, 3], port := 5000, destIp := [66], isMulticast := false }]⟩
        true =
      ⟨true, true, true,
        [{ data := [1, 2, 3], port := 5000, destIp := [66], isMulticast := false }]⟩ := by
  decide

/-- C2 amended: a unicast send cached while disconnected is replayed when the
connection-event handler (the SDK signal that also invokes
setConnectionStatus and then sendCachedMessages) reports connected: the
cached send returns true without any transport call, and the reconnect event
hands the transport exactly one send call with the original payload and
destination (the SDK unicast call carries no port argument) and leaves the
cache empty. -/
theorem reconnect_event_replays_cached_send (sdk : SdkOracle) (s : HaLowState)
    (destIp data : List Nat) (port : Nat)
    (h1 : s.isInitialized = true) (h2 : s.hasSDK = true)
    (h3 : s.isConnected = false) (h4 : s.messageCache = []) :
    (sendUdpUnicast sdk s destIp data port).1 = true ∧
    (sendUdpUnicast sdk s destIp data port).2.2 = [] ∧
    (sendUdpUnicast sdk s destIp data port).2.1.messageCache =
      [{ data := data, port := port, destIp := destIp, isMulticast := false }] ∧
    (handleConnectionEvent sdk (sendUdpUnicast sdk s destIp data port).2.1 true).2 =
      [TransportCall.sendData destIp data] ∧
    (handleConnectionEvent sdk (sendUdpUnicast sdk s destIp data port).2.1 true).1.messageCache =
      [] := by
  have hsend : sendUdpUnicast sdk s destIp data port =
      (true,
       { s with messageCache :=
           [{ data := data, port := port, destIp := destIp, isMulticast := false }] },
       []) := by
    simp [sendUdpUnicast, h1, h2, h3, h4]
  rw [hsend]
  simp [handleConnectionEvent, setConnectionStatus, sendCachedMessages, h3,
        flushLoop, sendUdpUnicast, h1, h2]

/-- Witness for C2 (amended) at a concrete state: payload [1,2,3] to
destination [66], port 5000, with a transport that accepts the send. -/
theorem reconnect_event_replays_cached_send_witness :
    (sendUdpUnicast (fun _ => true) ⟨true, false, true, []⟩ [66] [1, 2, 3] 5000).1 = true ∧
    (sendUdpUnicast (fun _ => true) ⟨true, false, true, []⟩ [66] [1, 2, 3] 5000).2.2 = [] ∧
    (sendUdpUnicast (fun _ => true) ⟨true, false, true, []⟩ [66] [1, 2, 3] 5000).2.1.messageCache =
      [{ data := [1, 2, 3], port := 5000, destIp := [66], isMulticast := false }] ∧
    (handleConnectionEvent (fun _ => true)
        (sendUdpUnicast (fun _ => true) ⟨true, false, true, []⟩ [66] [1, 2, 3] 5000).2.1
        true).2 = [TransportCall.sendData [66] [1, 2, 3]] ∧
    (handleConnectionEvent (fun _ => true)
        (sendUdpUnicast (fun _ => true) ⟨true, false, true, []⟩ [66] [1, 2, 3] 5000).2.1
        true).1.messageCache = [] :=
  reconnect_event_replays_cached_send (fun _ => true) ⟨true, false, true, []⟩
    [66] [1, 2, 3] 5000 rfl rfl rfl rfl

/-- C3: with the manager initialized and connected, sendCachedMessages hands
the transport exactly one send call per cached message, in insertion (FIFO)
order with the cached payload and destination (the result of each replayed
call is discarded, so a rejected message is dropped, not re-queued), and the
cache is empty afterwards. -/
theorem sendCachedMessages_fifo (sdk : SdkOracle) (s : HaLowState)
    (h1 : s.isInitialized = true) (h2 : s.hasSDK = true)
    (h3 : s.isConnected = true) :
    sendCachedMessages sdk s =
      ({ s with messageCache := [] }, s.messageCache.map callOfCached) := by
  by_cases hc : s.messageCache = []
  · obtain ⟨i, c, k, cache⟩ := s
    simp only at hc
    subst hc
    simp [sendCachedMessages]
  · simp [sendCachedMessages, hc, flushLoop_connected sdk s h1 h2 h3]

/-- Witness for C3: a three-entry cache [m1, m2, m3] flushed against a
transport that rejects every call still produces exactly the three calls in
FIFO order and empties the cache. -/
theorem sendCachedMessages_fifo_witness :
    sendCachedMessages (fun _ => false)
        ⟨true, true, true,
          [{ data := [1], port := 1000, destIp := [10], isMulticast := false },
           { data := [2], port := 2000, destIp := [], isMulticast := true },
           { data := [3], port := 3000, destIp := [30], isMulticast := false }]⟩ =
      (⟨true, true, true, []⟩,
       [TransportCall.sendData [10] [1],
        TransportCall.broadcastData [2],
        TransportCall.sendData [30] [3]]) :=
  sendCachedMessages_fifo (fun _ => false)
    ⟨true, true, true,
      [{ data := [1], port := 1000, destIp := [10], isMulticast := false },
       { data := [2], port := 2000, destIp := [], isMulticast := true },
       { data := [3], port := 3000, destIp := [30], isMulticast := false }]⟩
    rfl rfl rfl

/-- Characterization of the retry loop: starting at a given attempt counter
with the given remaining attempts, the loop makes between 0 and fuel further
invocations, stops right after the first successful one, and on failure has
invoked the operation at every attempt index in range. -/
lemma retryLoop_spec (f : Nat → Bool) (fuel : Nat) :
    ∀ attempt : Nat,
      attempt ≤ (retryLoop f attempt fuel).2 ∧
      (retryLoop f attempt fuel).2 ≤ attempt + fuel ∧
      ((retryLoop f attempt fuel).1 = true →
        f ((retryLoop f attempt fuel).2 - 1) = true ∧
        ∀ i, attempt ≤ i → i < (retryLoop f attempt fuel).2 - 1 → f i = false) ∧
      ((retryLoop f attempt fuel).1 = false →
        (retryLoop f attempt fuel).2 = attempt + fuel ∧
        ∀ i, attempt ≤ i → i < attempt + fuel → f i = false) := by
  induction fuel with
  | zero =>
    intro attempt
    simp only [retryLoop]
    refine ⟨le_refl _, by omega, by simp, ?_⟩
    intro _
    exact ⟨by omega, fun i h1 h2 => absurd h2 (by omega)⟩
  | succ n ih =>
    intro attempt
    by_cases hf : f attempt = true
    · simp only [retryLoop, hf, if_pos]
      refine ⟨by omega, by omega, ?_, by simp⟩
      intro _
      simp only [Nat.add_sub_cancel]
      exact ⟨hf, fun i h1 h2 => absurd h2 (by omega)⟩
    · have hff : f attempt = false := by simpa using hf
      simp only [retryLoop, hff, Bool.false_eq_true, ite_false]
      obtain ⟨ha, hb, hc, hd⟩ := ih (attempt + 1)
      refine ⟨by omega, by omega, ?_, ?_⟩
      · intro hs
        obtain ⟨hfi, hall⟩ := hc hs
        refine ⟨hfi, fun i h1 h2 => ?_⟩
        rcases Nat.eq_or_lt_of_le h1 with h | h
        · exact h ▸ hff
        · exact hall i (by omega) h2
      · intro hs
        obtain ⟨hn, hall⟩ := hd hs
        refine ⟨by omega, fun i h1 h2 => ?_⟩
        rcases Nat.eq_or_lt_of_le h1 with h | h
        · exact h ▸ hff
        · exact hall i (by omega) (by omega)

/-- C6 counterexample: when the caller passes a null error_context,
retry_with_backoff exhausts its attempts, returns false, and reports no
error at all — the System/Timeout report in the source is guarded by
`if (!success && error_context)`, so the claim's unconditional "reports a
System/Timeout error" fails at this input (an always-failing operation,
max_attempts = 1, null error_context). -/
theorem retry_no_report_without_context :
    retry_with_backoff (some (fun _ => false))
        (some { max_attempts := 1, base_delay_ms := 100, max_delay_ms := 5000,
                backoff_multiplier := 2, jitter_enabled := true })
        false =
      (false, 1, none) := by
  rfl

/-- C6 amended: for max_attempts ≥ 1, retry_with_backoff invokes the
operation at most max_attempts times, returns true as soon as one invocation
returns true (all earlier invocations returned false and no further
invocation is made), and otherwise — after all max_attempts invocations have
returned false — returns false and reports a System/Timeout error exactly
when the caller provided an error_context out-parameter. -/
theorem retry_with_backoff_spec (f : Nat → Bool) (cfg : RetryConfig)
    (ctx : Bool) (hmax : 1 ≤ cfg.max_attempts) :
    (retry_with_backoff (some f) (some cfg) ctx).2.1 ≤ cfg.max_attempts ∧
    ((retry_with_backoff (some f) (some cfg) ctx).1 = true →
      f ((retry_with_backoff (some f) (some cfg) ctx).2.1 - 1) = true ∧
      (∀ i, i < (retry_with_backoff (some f) (some cfg) ctx).2.1 - 1 → f i = false) ∧
      (retry_with_backoff (some f) (some cfg) ctx).2.2 = none) ∧
    ((retry_with_backoff (some f) (some cfg) ctx).1 = false →
      (retry_with_backoff (some f) (some cfg) ctx).2.1 = cfg.max_attempts ∧
      (∀ i, i < cfg.max_attempts → f i = false) ∧
      (retry_with_backoff (some f) (some cfg) ctx).2.2 =
        if ctx then some (ErrorCategory.system, ErrorCode.timeout) else none) := by
  obtain ⟨ha, hb, hc, hd⟩ := retryLoop_spec f cfg.max_attempts 0
  simp only [retry_with_backoff]
  refine ⟨by omega, ?_, ?_⟩
  · intro hs
    obtain ⟨hfi, hall⟩ := hc hs
    refine ⟨hfi, fun i hi => hall i (by omega) hi, ?_⟩
    simp [hs]
  · intro hs
    obtain ⟨hn, hall⟩ := hd hs
    refine ⟨by omega, fun i hi => hall i (by omega) (by omega), ?_⟩
    cases ctx <;> simp [hs]

/-- Witness for C6 (amended): an operation that succeeds on its second
invocation under the default policy (max_attempts = 3) is invoked exactly
twice, returns true, and makes no error report. -/
theorem retry_with_backoff_spec_witness :
    1 ≤ RETRY_CONFIG_DEFAULT.max_attempts ∧
    ((retry_with_backoff (some (fun i => decide (i = 1)))
        (some RETRY_CONFIG_DEFAULT) true).1 = true →
      (fun i => decide (i = 1))
          ((retry_with_backoff (some (fun i => decide (i = 1)))
              (some RETRY_CONFIG_DEFAULT) true).2.1 - 1) = true ∧
      (∀ i, i < (retry_with_backoff (some (fun i => decide (i = 1)))
          (some RETRY_CONFIG_DEFAULT) true).2.1 - 1 →
        (fun i => decide (i = 1)) i = false) ∧
      (retry_with_backoff (some (fun i => decide (i = 1)))
          (some RETRY_CONFIG_DEFAULT) true).2.2 = none) :=
  ⟨by decide,
   (retry_with_backoff_spec (fun i => decide (i = 1)) RETRY_CONFIG_DEFAULT true
      (by decide)).2.1⟩

/-- Multiplying a natural delay by the multiplier 2 and truncating gives
exactly twice the delay. -/
lemma floor_two_mul (d : Nat) : (Int.floor ((d : ℚ) * 2)).toNat = 2 * d := by
  have h : ((d : ℚ) * 2) = ((2 * d : ℕ) : ℚ) := by push_cast; ring
  rw [h, Int.floor_natCast, Int.toNat_natCast]

/-- Closed form of the backoff loop at multiplier 2: starting at or below the
cap, n iterations of doubling-then-clamping compute the doubled delay capped
at the maximum. -/
lemma backoffLoop_two_closed (m : Nat) (n : Nat) :
    ∀ d, d ≤ m → backoffLoop d m 2 n = min (d * 2 ^ n) m := by
  induction n with
  | zero =>
    intro d hd
    simp only [backoffLoop, pow_zero, mul_one]
    omega
  | succ k ih =>
    intro d hd
    simp only [backoffLoop, floor_two_mul]
    by_cases h2 : 2 * d > m
    · have hk : 1 ≤ 2 ^ k := Nat.one_le_two_pow
      have hx : 2 * d ≤ d * 2 ^ (k + 1) := by
        rw [pow_succ]
        calc 2 * d = (2 * d) * 1 := by ring
        _ ≤ (2 * d) * 2 ^ k := Nat.mul_le_mul_left _ hk
        _ = d * (2 ^ k * 2) := by ring
      have hm : m ≤ d * 2 ^ (k + 1) := le_trans (Nat.le_of_lt h2) hx
      simp only [h2, if_pos, min_eq_right hm]
    · have h2le : 2 * d ≤ m := Nat.le_of_not_lt h2
      rw [if_neg h2, ih (2 * d) h2le]
      have hx : 2 * d * 2 ^ k = d * 2 ^ (k + 1) := by rw [pow_succ]; ring
      rw [hx]

/-- Closed form of calculate_backoff_delay for base 100, multiplier 2, cap
5000 with jitter, below the cap: the exponential delay plus the jitter draw
modulo a quarter of it. -/
lemma cbd_default_small (a r : Nat) (h : a < 6) :
    calculate_backoff_delay a 100 5000 2 true r =
      100 * 2 ^ a + r % (25 * 2 ^ a) := by
  have hb := backoffLoop_two_closed 5000 a 100 (by omega)
  interval_cases a <;>
    norm_num at hb <;>
    simp [calculate_backoff_delay, hb, add_jitter]

/-- Closed form of calculate_backoff_delay for base 100, multiplier 2, cap
5000 with jitter, at or past the cap: exactly 5000, with no jitter added. -/
lemma cbd_default_ge6 (b r : Nat) (h : 6 ≤ b) :
    calculate_backoff_delay b 100 5000 2 true r = 5000 := by
  have hb := backoffLoop_two_closed 5000 b 100 (by omega)
  have hpow : 6400 ≤ 100 * 2 ^ b := by
    have : (2 : ℕ) ^ 6 ≤ 2 ^ b := Nat.pow_le_pow_right (by omega) h
    omega
  rw [min_eq_right (by omega)] at hb
  simp [calculate_backoff_delay, hb]

/-- C7: for base_delay = 100, multiplier = 2, max_delay = 5000 (jitter
enabled, as in the default preset), the delays calculate_backoff_delay
computes for successive attempt numbers are non-decreasing and never exceed
max_delay, for every pair of values of the random jitter draw. -/
theorem backoff_delays_monotone_bounded (a r1 r2 : Nat) :
    calculate_backoff_delay a 100 5000 2 true r1 ≤
      calculate_backoff_delay (a + 1) 100 5000 2 true r2 ∧
    calculate_backoff_delay a 100 5000 2 true r1 ≤ 5000 := by
  rcases Nat.lt_or_ge a 6 with h | h
  · interval_cases a
    · rw [cbd_default_small 0 r1 (by omega), cbd_default_small (0 + 1) r2 (by omega)]
      norm_num
      omega
    · rw [cbd_default_small 1 r1 (by omega), cbd_default_small (1 + 1) r2 (by omega)]
      norm_num
      omega
    · rw [cbd_default_small 2 r1 (by omega), cbd_default_small (2 + 1) r2 (by omega)]
      norm_num
      omega
    · rw [cbd_default_small 3 r1 (by omega), cbd_default_small (3 + 1) r2 (by omega)]
      norm_num
      omega
    · rw [cbd_default_small 4 r1 (by omega), cbd_default_small (4 + 1) r2 (by omega)]
      norm_num
      omega
    · rw [cbd_default_small 5 r1 (by omega), cbd_default_ge6 (5 + 1) r2 (by omega)]
      norm_num
      omega
  · rw [cbd_default_ge6 a r1 h, cbd_default_ge6 (a + 1) r2 (by omega)]
    omega

/-- C8 counterexample: against a queue that stays full, send_ui_update blocks
for the full 200 ms QUEUE_SEND_TIMEOUT and send_audio_command blocks 10 ms
and then retries for another 100 ms (110 ms in total) — both beyond the 10 ms
bound the claim states. -/
theorem queue_send_blocking_exceeds_10ms :
    (send_ui_update true true).2 = 200 ∧
    (send_audio_command true true).2 = 110 ∧
    ¬(send_ui_update true true).2 ≤ 10 ∧
    ¬(send_audio_command true true).2 ≤ 10 := by
  decide

/-- C8 amended: the producers are bounded, but by the configured timeouts,
not by 10 ms: a send_ui_update call blocks at most 200 ms
(QUEUE_SEND_TIMEOUT) and a send_audio_command call at most 110 ms (a 10 ms
QUEUE_SEND_TIMEOUT_CRITICAL attempt plus one 100 ms MUTEX_TIMEOUT_SHORT
retry), whether or not the queue exists or stays full. -/
theorem queue_send_blocking_bounded (queueCreated fullThroughout : Bool) :
    (send_ui_update queueCreated fullThroughout).2 ≤ QUEUE_SEND_TIMEOUT ∧
    (send_audio_command queueCreated fullThroughout).2 ≤
      QUEUE_SEND_TIMEOUT_CRITICAL + MUTEX_TIMEOUT_SHORT := by
  cases queueCreated <;> cases fullThroughout <;> decide

/-- C4: SecurityManager::decrypt is a placeholder that performs no
authentication: on an initialized manager it returns true (success) for an
arbitrary tampered envelope — here the bytes [0, 1, 2], which no encrypt
call produced — leaving the caller's plaintext buffer untouched, where the
claim (and the TODO comments in the source itself) require an
authentication failure. -/
theorem decrypt_placeholder_accepts_tampered :
    securityDecrypt { isInitialized := true, groupKey := List.replicate 32 0 }
        [0, 1, 2] [] =
      (true, []) := by
  decide

/-- C10: setGroupKey rejects any key whose length is not exactly 32 bytes,
leaving the whole manager state (in particular the stored group key)
unchanged, and stores any 32-byte key as the new group key. -/
theorem setGroupKey_spec (s : SecurityState) (key : List Nat) :
    (key.length ≠ 32 → setGroupKey s key = s) ∧
    (key.length = 32 → (setGroupKey s key).groupKey = key) := by
  constructor
  · intro h
    simp [setGroupKey, h]
  · intro h
    simp [setGroupKey, h]

/-- Witness for C10: a 3-byte key is rejected with the state unchanged; a
32-byte key is stored. -/
theorem setGroupKey_spec_witness :
    setGroupKey { isInitialized := true, groupKey := List.replicate 32 0 } [1, 2, 3] =
      { isInitialized := true, groupKey := List.replicate 32 0 } ∧
    (setGroupKey { isInitialized := true, groupKey := List.replicate 32 0 }
        (List.replicate 32 7)).groupKey = List.replicate 32 7 :=
  ⟨(setGroupKey_spec { isInitialized := true, groupKey := List.replicate 32 0 }
      [1, 2, 3]).1 (by decide),
   (setGroupKey_spec { isInitialized := true, groupKey := List.replicate 32 0 }
      (List.replicate 32 7)).2 (by decide)⟩

/-- C9: the network task's summary carries has_gps_lock = (bool)0xFF, but the
bool cast collapses the 0xFF sentinel to true, and the UI task's sentinel
check compares the bool field (promoted to 0 or 1) against 0xFF, which never
matches; so a summary intended to mean "unchanged" sets gps_lock_status to
true on a UI whose lock status was false — while an explicit false is indeed
applied as false.  The claim's sentinel behavior (leave unchanged) does not
hold on the code. -/
theorem sentinel_gps_lock_misfires :
    (uiApplyUpdate { team_contact_count := 0, gps_lock_status := false, force_redraw := false }
        (networkSummaryUpdate 3)).gps_lock_status = true ∧
    (uiApplyUpdate { team_contact_count := 0, gps_lock_status := false, force_redraw := false }
        { has_gps_lock := false, contact_count := 3 }).gps_lock_status = false := by
  decide

/-- Reading back a length-prefixed string recovers the string and the
remaining bytes. -/
lemma decodeString_encodeString (s rest : List Nat) :
    decodeString (encodeString s ++ rest) = some (s, rest) := by
  simp only [encodeString, List.cons_append, decodeString]
  rw [if_pos]
  · rw [List.take_left, List.drop_left]
  · simp

/-- Reading back a length-prefixed string with nothing after it. -/
lemma decodeString_encodeString_nil (s : List Nat) :
    decodeString (encodeString s) = some (s, []) := by
  simpa using decodeString_encodeString s []

/-- Reading back a little-endian 32-bit integer in the signed 32-bit range
recovers the value and the remaining bytes. -/
lemma decodeInt32_encodeInt32 (i : Int) (rest : List Nat)
    (h : int32InRange i = true) :
    decodeInt32 (encodeInt32 i ++ rest) = some (i, rest) := by
  simp only [int32InRange, decide_eq_true_eq] at h
  simp only [encodeInt32, List.cons_append, List.nil_append, decodeInt32]
  have h1 : (0 : ℤ) ≤ i % 2 ^ 32 := Int.emod_nonneg i (by norm_num)
  have h2 : i % 2 ^ 32 < 2 ^ 32 := Int.emod_lt_of_pos i (by norm_num)
  have hcast : ((i.emod (2 ^ 32)).toNat : ℤ) = i % 2 ^ 32 :=
    Int.toNat_of_nonneg h1
  set n : Nat := (i.emod (2 ^ 32)).toNat with hn
  have hlt : n < 2 ^ 32 := by omega
  have hrec : n % 256 + 256 * (n / 256 % 256) + 65536 * (n / 65536 % 256) +
      16777216 * (n / 16777216 % 256) = n := by omega
  rw [hrec]
  have hfinal : (if n < 2 ^ 31 then ((n : ℤ)) else (n : ℤ) - 2 ^ 32) = i := by
    by_cases hsplit : n < 2 ^ 31
    · rw [if_pos hsplit]
      omega
    · rw [if_neg hsplit]
      omega
  rw [hfinal]

/-- Reading back a little-endian 32-bit integer with nothing after it. -/
lemma decodeInt32_encodeInt32_nil (i : Int) (h : int32InRange i = true) :
    decodeInt32 (encodeInt32 i) = some (i, []) := by
  simpa using decodeInt32_encodeInt32 i [] h

/-- C5: for every valid AirComPacket, unpacking the buffer filled by pack
(whose length is exactly get_packed_size) yields the packet again. -/
theorem packet_roundtrip (p : AirComPacket) (h : validPacket p = true) :
    air_com_packet__unpack (air_com_packet__pack p) = some p ∧
    (air_com_packet__pack p).length = air_com_packet__get_packed_size p := by
  refine ⟨?_, rfl⟩
  obtain ⟨pc, ni, tm, nh, fn, cm⟩ := p
  rcases ni with _ | n <;> rcases tm with _ | t <;> rcases nh with _ | hh <;>
    rcases cm with _ | c <;> rcases pc with _ | _ | _ | _ | _ | pc <;>
    simp_all [validPacket, air_com_packet__pack, air_com_packet__unpack,
      decodeString_encodeString, decodeString_encodeString_nil,
      decodeInt32_encodeInt32, decodeInt32_encodeInt32_nil]

/-- Witness for C5 at a concrete NetworkHealth packet with a negative rssi. -/
theorem packet_roundtrip_witness :
    validPacket { payload_variant_case := 3, node_info := none, text_message := none,
                  network_health := some { rssi := -70 }, from_node := [65, 49],
                  cot_message := none } = true ∧
    (air_com_packet__unpack (air_com_packet__pack
        { payload_variant_case := 3, node_info := none, text_message := none,
          network_health := some { rssi := -70 }, from_node := [65, 49],
          cot_message := none }) =
      some { payload_variant_case := 3, node_info := none, text_message := none,
             network_health := some { rssi := -70 }, from_node := [65, 49],
             cot_message := none } ∧
    (air_com_packet__pack
        { payload_variant_case := 3, node_info := none, text_message := none,
          network_health := some { rssi := -70 }, from_node := [65, 49],
          cot_message := none }).length =
      air_com_packet__get_packed_size
        { payload_variant_case := 3, node_info := none, text_message := none,
          network_health := some { rssi := -70 }, from_node := [65, 49],
          cot_message := none }) :=
  ⟨by decide,
   packet_roundtrip
     { payload_variant_case := 3, node_info := none, text_message := none,
       network_health := some { rssi := -70 }, from_node := [65, 49],
       cot_message := none }
     (by decide)⟩
